import Mathlib

/-
Verification of the EcoSense IoT firmware sketches (ESP32 weather station).

The repository holds three Arduino sketches. Two of them
(src/unnamed/part_000 and src/unnamed/part_001) are full variants of the
station: they read a DHT22 sensor, publish readings over MQTT, receive
threshold configuration as JSON on a subscribed topic, evaluate alert
flags, blink alert LEDs and debounce a page button. The third
(ESP32_Sensor_WiFi.ino) is a publish-only sketch without configuration.

This file is a shallow embedding of the state-bearing parts of those
sketches:
  * 32-bit unsigned millisecond arithmetic (`sub32`) and the timer
    readiness comparisons used by the blink, sensor-poll, reconnect and
    debounce timers;
  * the threshold evaluator `verificarAlertas` of each variant (floats
    are modelled as `Option ℚ`, with `none` standing for the NaN
    sentinel; float comparisons against NaN are false);
  * the MQTT configuration callback of each variant (a parsed JSON
    document is modelled as an association list of key/value pairs, a
    failed parse as `none`);
  * the LED manager `gerenciarLeds` of each variant;
  * the button debounce logic of the main loop.

All definitions are translated from the source sketches; the suffix 000
or 001 says which sketch a definition comes from.
-/

/-! ## 32-bit unsigned arithmetic and timer readiness -/

/-- `2^32`, the modulus of the `unsigned long` (u32) millisecond counter. -/
def U32 : Nat := 4294967296

/-- Unsigned 32-bit subtraction `a - b` as computed by the C expressions
`currentMillis - previousMillisBlink`, `millis() - lastDebounceTime`, etc. -/
def sub32 (a b : Nat) : Nat := (U32 + a % U32 - b % U32) % U32

/-- Readiness comparison of the LED-blink timer:
`currentMillis - previousMillisBlink >= blinkInterval` (both sketches). -/
def readyGe (itv now last : Nat) : Bool := decide (itv ≤ sub32 now last)

/-- Readiness comparison of the sensor-poll timer (`millis() - lastMsg > 15000`),
the reconnect timer (`now - previousMillisReconnect > 5000`, part_000) and the
debounce timer (`millis() - lastDebounceTime > 250` resp. `> 300`): strict. -/
def readyGt (itv now last : Nat) : Bool := decide (itv < sub32 now last)

/-- The blink interval of both sketches (`const long blinkInterval = 300`). -/
def blinkInterval : Nat := 300

/-! ## Data model: readings, configuration, alert state -/

/-- A sensor channel value: `some q` is an ordinary float reading, `none`
is the NaN sentinel returned by a failed DHT read. -/
abbrev FVal := Option ℚ

/-- Float `>` with NaN semantics: any comparison against NaN is false. -/
def fgt : FVal → ℚ → Bool
  | some x, y => decide (y < x)
  | none, _ => false

/-- Float `<` with NaN semantics: any comparison against NaN is false. -/
def flt : FVal → ℚ → Bool
  | some x, y => decide (x < y)
  | none, _ => false

/-- The four configured bounds
(`conf_temp_max`, `conf_temp_min`, `conf_umid_max`, `conf_umid_min`). -/
structure Config where
  temp_max : ℚ
  temp_min : ℚ
  umid_max : ℚ
  umid_min : ℚ
  deriving DecidableEq, Repr

/-- The initial bounds of both sketches (30 / 15 / 80 / 30). -/
def initConfig : Config := ⟨30, 15, 80, 30⟩

/-- The two alert flags (`alerta_temp_ativo`, `alerta_umid_ativo`). -/
structure AlertState where
  temp : Bool
  humid : Bool
  deriving DecidableEq, Repr

/-- Threshold evaluation of sketch part_001 (lines 109–115): assigns both
flags unconditionally, with no NaN guard of its own; on a NaN input the
float comparisons are all false, so the flag is assigned `false`. -/
def verificarAlertas001 (t h : FVal) (c : Config) : AlertState :=
  ⟨fgt t c.temp_max || flt t c.temp_min,
   fgt h c.umid_max || flt h c.umid_min⟩

/-- Threshold evaluation of sketch part_000 (lines 128–133):
`if (isnan(t) || isnan(h)) return;` keeps the previous flags, otherwise
both flags are reassigned from the comparisons. -/
def verificarAlertas000 (t h : FVal) (c : Config) (prev : AlertState) : AlertState :=
  if t.isNone || h.isNone then prev
  else verificarAlertas001 t h c

/-! ## Configuration ingestion (MQTT callback) -/

/-- A successfully parsed JSON configuration document: the key/value pairs,
values already converted to numbers. `containsKey`/`operator[]` of
ArduinoJson are modelled by association-list lookup. -/
abbrev Doc := List (String × ℚ)

/-- The four `if (doc.containsKey(..)) conf_.. = doc[..];` statements shared
by both callbacks (part_000 lines 96–99, part_001 lines 95–98). Keys other
than the four known ones are never looked up, hence ignored. -/
def applyConf (doc : Doc) (c : Config) : Config :=
  let c1 := match doc.lookup "temp_max" with
    | some v => { c with temp_max := v }
    | none => c
  let c2 := match doc.lookup "temp_min" with
    | some v => { c1 with temp_min := v }
    | none => c1
  let c3 := match doc.lookup "umid_max" with
    | some v => { c2 with umid_max := v }
    | none => c2
  match doc.lookup "umid_min" with
    | some v => { c3 with umid_min := v }
    | none => c3

/-- The global state touched by a configuration message in part_000:
the live bounds, the last valid reading (`current_temp`, `current_hum`,
plain floats initialised to 0.0 and only ever overwritten by valid
readings) and the alert flags. -/
structure SysState where
  cfg : Config
  cur_t : ℚ
  cur_h : ℚ
  alerts : AlertState
  deriving DecidableEq, Repr

/-- MQTT callback of part_000 (lines 82–123). `none` stands for a payload
`deserializeJson` rejected: the callback only logs and returns. On success
the bounds named by the message are overwritten and the alerts are
recomputed at once against the stored reading
(`verificarAlertas(current_temp, current_hum)`). -/
def callback000 (parsed : Option Doc) (s : SysState) : SysState :=
  match parsed with
  | none => s
  | some doc =>
    let cfg := applyConf doc s.cfg
    { s with
      cfg := cfg
      alerts := verificarAlertas000 (some s.cur_t) (some s.cur_h) cfg s.alerts }

/-- MQTT callback of part_001 (lines 81–103): on success it overwrites the
bounds named by the message and returns; it does not re-run the threshold
evaluator (part_001 keeps no stored reading). -/
def callback001 (parsed : Option Doc) (s : SysState) : SysState :=
  match parsed with
  | none => s
  | some doc => { s with cfg := applyConf doc s.cfg }

/-- The alert-state part of the sensor-poll body of part_001 (loop lines
281–300): `if (!isnan(t) && !isnan(h)) verificarAlertas(t, h);` — the NaN
guard sits at the call site, the flags stay untouched on a failed read. -/
def pollAlerts001 (t h : FVal) (c : Config) (a : AlertState) : AlertState :=
  match t, h with
  | some tv, some hv => verificarAlertas001 (some tv) (some hv) c
  | _, _ => a

/-! ## LED manager -/

/-- LED and blink-phase state of part_000: `previousMillisBlink`,
`ledStateBlink`, and the three output pins. -/
structure LedState where
  prevBlink : Nat
  ledStateBlink : Bool
  red : Bool
  blue : Bool
  green : Bool
  deriving DecidableEq, Repr

/-- `gerenciarLeds` of part_000 (lines 138–159). The alert LEDs (red,
blue) are written only inside the `currentMillis - previousMillisBlink >=
blinkInterval` block; the green LED is written on every call, from the
connectivity flags and the alert flags. -/
def gerenciarLeds000 (now : Nat) (wifiOk mqttOk : Bool) (a : AlertState)
    (s : LedState) : LedState :=
  let s1 :=
    if readyGe blinkInterval now s.prevBlink then
      let ls := !s.ledStateBlink
      { s with
        prevBlink := now
        ledStateBlink := ls
        red := if a.temp then ls else false
        blue := if a.humid then ls else false }
    else s
  { s1 with green := wifiOk && mqttOk && !a.temp && !a.humid }

/-- `gerenciarLeds` of part_001 (lines 121–159). All three LEDs, the green
one included, are written only inside the timer block, and the green LED's
condition is `!alerta_temp_ativo && !alerta_umid_ativo` — connectivity is
not consulted. -/
def gerenciarLeds001 (now : Nat) (a : AlertState) (s : LedState) : LedState :=
  if readyGe blinkInterval now s.prevBlink then
    let ls := !s.ledStateBlink
    { prevBlink := now
      ledStateBlink := ls
      red := if a.temp then ls else false
      blue := if a.humid then ls else false
      green := !a.temp && !a.humid }
  else s

/-! ## Button debounce -/

/-- Page-selector state: `menu_state` (0 = Home, 1 = Info, held as a
Bool) and `lastDebounceTime`. -/
structure BtnState where
  menu : Bool
  lastDebounce : Nat
  deriving DecidableEq, Repr

/-- One pass of the button block of the main loop (part_000 lines 275–281
with a 250 ms window, part_001 lines 267–272 with 300 ms): when the pin
reads LOW and strictly more than `itv` ms have passed since the last
accepted edge, the page toggles and `lastDebounceTime` is reset. -/
def buttonStep (itv now : Nat) (pressedLow : Bool) (s : BtnState) : BtnState :=
  if pressedLow && readyGt itv now s.lastDebounce then
    { menu := !s.menu, lastDebounce := now }
  else s

/-- A sequence of loop passes, each with a timestamp and a pin level. -/
def runButton (itv : Nat) (events : List (Nat × Bool)) (s : BtnState) : BtnState :=
  events.foldl (fun st e => buttonStep itv e.1 e.2 st) s

/-! ## Helper lemmas -/

/-- Unsigned 32-bit subtraction of in-range timestamps computes the
mathematical difference modulo `2^32`. -/
theorem sub32_int (a b : Nat) (ha : a < U32) (hb : b < U32) :
    (sub32 a b : Int) = ((a : Int) - b) % (U32 : Int) := by
  simp only [sub32, U32] at *
  omega

/-- `applyConf` as four independent field updates: a key present in the
document overwrites its bound, an absent key keeps the prior value. -/
theorem applyConf_eq (doc : Doc) (c : Config) :
    applyConf doc c =
      ⟨(doc.lookup "temp_max").getD c.temp_max,
       (doc.lookup "temp_min").getD c.temp_min,
       (doc.lookup "umid_max").getD c.umid_max,
       (doc.lookup "umid_min").getD c.umid_min⟩ := by
  unfold applyConf
  cases doc.lookup "temp_max" <;> cases doc.lookup "temp_min" <;>
    cases doc.lookup "umid_max" <;> cases doc.lookup "umid_min" <;> rfl

/-! ## C1: timer readiness under wraparound -/

/-- C1 counterexample: the sensor-poll timer instance
(`millis() - lastMsg > 15000`, part_000 line 285) is not ready when exactly
`interval` milliseconds have elapsed, although
`(now - last_fire) mod 2^32 = 15000 ≥ interval`. -/
theorem readyGt_not_ready_at_interval :
    15000 ≤ sub32 15000 0 ∧ readyGt 15000 15000 0 = false := by decide

/-- C1 (amended): for 32-bit timestamps, the blink-timer check (`>=`) is
ready exactly when the elapsed time modulo `2^32` is at least the interval,
while the sensor-poll, reconnect and debounce checks (strict `>`) are ready
exactly when it strictly exceeds the interval; both remain correct when the
counter wraps between `last` and `now`. -/
theorem ready_wraparound (now last itv : Nat) (hn : now < U32) (hl : last < U32) :
    (readyGe itv now last = true ↔ (itv : Int) ≤ ((now : Int) - last) % (U32 : Int))
    ∧ (readyGt itv now last = true ↔ (itv : Int) < ((now : Int) - last) % (U32 : Int)) := by
  have h := sub32_int now last hn hl
  simp only [U32] at h ⊢
  constructor
  · simp only [readyGe, decide_eq_true_eq]
    omega
  · simp only [readyGt, decide_eq_true_eq]
    omega

/-- Witness for C1's theorem, across a wraparound: the counter wrapped 50 ms
before `now = 100`, so 150 ms have elapsed; the blink check with a 150 ms
interval and the strict check with a 100 ms interval both fire. -/
theorem ready_wraparound_witness :
    readyGe 150 100 4294967246 = true ∧ readyGt 100 100 4294967246 = true := by
  have h1 := ready_wraparound 100 4294967246 150 (by decide) (by decide)
  have h2 := ready_wraparound 100 4294967246 100 (by decide) (by decide)
  exact ⟨h1.1.mpr (by decide), h2.2.mpr (by decide)⟩

/-! ## C2: threshold evaluation on valid readings -/

/-- C2: on non-NaN readings both evaluators compute
`temp_alert = (t > temp_max OR t < temp_min)` and
`humid_alert = (h > umid_max OR h < umid_min)`; the reading (35, 50)
against the initial bounds yields (true, false), and after a message
raising `temp_max` to 40 the same reading yields (false, false). -/
theorem verificarAlertas_spec :
    (∀ (t h : ℚ) (c : Config) (prev : AlertState),
      verificarAlertas000 (some t) (some h) c prev =
        ⟨decide (t > c.temp_max) || decide (t < c.temp_min),
         decide (h > c.umid_max) || decide (h < c.umid_min)⟩)
    ∧ (∀ (t h : ℚ) (c : Config),
      verificarAlertas001 (some t) (some h) c =
        ⟨decide (t > c.temp_max) || decide (t < c.temp_min),
         decide (h > c.umid_max) || decide (h < c.umid_min)⟩)
    ∧ verificarAlertas000 (some 35) (some 50) initConfig ⟨false, false⟩ = ⟨true, false⟩
    ∧ verificarAlertas000 (some 35) (some 50)
        (applyConf [("temp_max", 40)] initConfig) ⟨true, false⟩ = ⟨false, false⟩ := by
  refine ⟨fun t h c prev => rfl, fun t h c => rfl, by decide, by decide⟩

/-! ## C3: NaN readings and the alert state -/

/-- C3 counterexample: part_001's evaluator (lines 109–115) has no NaN
guard; invoked directly on a NaN temperature with prior flags (true, true)
it does not retain them — every float comparison on NaN is false, so it
returns (false, false). -/
theorem verificarAlertas001_nan_clears :
    verificarAlertas001 none (some 50) initConfig ≠ (⟨true, true⟩ : AlertState) := by
  decide

/-- C3 (amended): part_000's evaluator short-circuits on a NaN input and
keeps the prior flags; in part_001 the NaN guard sits at the evaluator's
only call site (the sensor poll), so there too a failed reading leaves the
alert flags unchanged — but part_001's evaluator itself, invoked on NaN,
would clear the flags. -/
theorem nan_preserves_alerts :
    (∀ (t h : FVal) (c : Config) (prev : AlertState),
      t = none ∨ h = none → verificarAlertas000 t h c prev = prev)
    ∧ (∀ (t h : FVal) (c : Config) (a : AlertState),
      t = none ∨ h = none → pollAlerts001 t h c a = a) := by
  constructor
  · intro t h c prev hnan
    rcases hnan with rfl | rfl <;> simp [verificarAlertas000]
  · intro t h c a hnan
    rcases hnan with rfl | rfl
    · cases h <;> rfl
    · cases t <;> rfl

/-- Witness for C3's theorem at a concrete NaN reading. -/
theorem nan_preserves_alerts_witness :
    verificarAlertas000 none (some 50) initConfig ⟨true, true⟩ = ⟨true, true⟩ :=
  nan_preserves_alerts.1 none (some 50) initConfig ⟨true, true⟩ (Or.inl rfl)

/-! ## C4: re-evaluation after configuration ingestion -/

/-- C4 counterexample: in part_001 a successfully ingested message raising
`temp_max` to 40 leaves the alert flags untouched, so they disagree with
the evaluation of the last valid reading (35, 50) under the new bounds:
the stale (true, false) persists where (false, false) is the consistent
value. -/
theorem callback001_stale_alerts :
    (callback001 (some [("temp_max", 40)]) ⟨initConfig, 35, 50, ⟨true, false⟩⟩).alerts
      ≠ verificarAlertas001 (some 35) (some 50)
          (callback001 (some [("temp_max", 40)]) ⟨initConfig, 35, 50, ⟨true, false⟩⟩).cfg := by
  decide

/-- C4 (amended): part_000's callback re-runs the evaluator inside the
callback, so after every successful ingestion the alert flags equal the
evaluation of the stored reading under the updated bounds; part_001's
callback returns the flags unchanged (they stay stale until the next
sensor poll). -/
theorem callback_realert :
    (∀ (doc : Doc) (s : SysState),
      (callback000 (some doc) s).alerts =
        verificarAlertas001 (some (callback000 (some doc) s).cur_t)
          (some (callback000 (some doc) s).cur_h) (callback000 (some doc) s).cfg)
    ∧ (∀ (doc : Doc) (s : SysState), (callback001 (some doc) s).alerts = s.alerts) := by
  constructor
  · intro doc s
    rfl
  · intro doc s
    rfl

/-! ## C5: partial configuration update -/

/-- C5: ingestion overwrites exactly the bounds named by the message: each
bound becomes the message's value when its key is present and keeps its
prior value when absent; the message setting only `temp_max` to 28 leaves
the other three bounds at their initial values; unknown keys are ignored. -/
theorem applyConf_frame :
    (∀ (doc : Doc) (c : Config),
      applyConf doc c =
        ⟨(doc.lookup "temp_max").getD c.temp_max,
         (doc.lookup "temp_min").getD c.temp_min,
         (doc.lookup "umid_max").getD c.umid_max,
         (doc.lookup "umid_min").getD c.umid_min⟩)
    ∧ applyConf [("temp_max", 28)] initConfig = ⟨28, 15, 80, 30⟩
    ∧ (∀ (c : Config) (v : ℚ), applyConf [("other_key", v)] c = c) := by
  refine ⟨applyConf_eq, by decide, fun c v => ?_⟩
  rw [applyConf_eq]
  rfl

/-! ## C6: malformed payload -/

/-- C6: a payload the JSON parser rejects leaves the whole state — in
particular all four bounds — unchanged in both callbacks; the callback
merely logs and returns. -/
theorem callback_malformed_noop :
    (∀ s : SysState, callback000 none s = s) ∧ (∀ s : SysState, callback001 none s = s) :=
  ⟨fun _ => rfl, fun _ => rfl⟩

/-! ## C7: alert LED blinking -/

/-- C7 counterexample: in part_000, 100 ms after the last firing (blink
timer not yet ready) with both alerts inactive, a red LED that was left ON
stays ON — the forced-OFF write sits inside the timer block, so it waits
for the next firing instead of happening immediately. -/
theorem gerenciarLeds000_lingering_red :
    (gerenciarLeds000 1100 true true ⟨false, false⟩
      ⟨1000, true, true, false, false⟩).red = true := by
  decide

/-- C7 (amended): in both sketches the alert LEDs are written only when
the blink timer fires: at a firing an active channel takes the freshly
toggled blink state and an inactive channel is driven OFF; between
firings both alert LEDs keep their previous level, so an LED may stay ON
for up to one blink interval after its alert clears. -/
theorem gerenciarLeds_blink :
    ∀ (now : Nat) (w m : Bool) (a : AlertState) (s : LedState),
      (readyGe blinkInterval now s.prevBlink = true →
        (gerenciarLeds000 now w m a s).red = (if a.temp then !s.ledStateBlink else false)
        ∧ (gerenciarLeds000 now w m a s).blue = (if a.humid then !s.ledStateBlink else false)
        ∧ (gerenciarLeds001 now a s).red = (if a.temp then !s.ledStateBlink else false)
        ∧ (gerenciarLeds001 now a s).blue = (if a.humid then !s.ledStateBlink else false))
      ∧ (readyGe blinkInterval now s.prevBlink = false →
        (gerenciarLeds000 now w m a s).red = s.red
        ∧ (gerenciarLeds000 now w m a s).blue = s.blue
        ∧ (gerenciarLeds001 now a s).red = s.red
        ∧ (gerenciarLeds001 now a s).blue = s.blue) := by
  intro now w m a s
  constructor
  · intro hfire
    simp [gerenciarLeds000, gerenciarLeds001, hfire]
  · intro hidle
    simp [gerenciarLeds000, gerenciarLeds001, hidle]

/-- Witness for C7's theorem: at a firing with the temperature alert
active, the red LED takes the toggled blink state. -/
theorem gerenciarLeds_blink_witness :
    (gerenciarLeds000 1300 true true ⟨true, false⟩
      ⟨1000, false, false, false, false⟩).red = true := by
  have h := (gerenciarLeds_blink 1300 true true ⟨true, false⟩
    ⟨1000, false, false, false, false⟩).1 (by decide)
  exact h.1.trans (by decide)

/-! ## C8: green (all clear) LED -/

/-- C8 counterexample: in part_001 the green LED is written only inside
the blink-timer block; 100 ms after the last firing, with the temperature
alert active, a green LED that was left ON stays ON — the claim requires
it to be driven OFF on every loop iteration in which an alert is active. -/
theorem gerenciarLeds001_green_stale :
    (gerenciarLeds001 1100 ⟨true, false⟩ ⟨1000, true, false, false, true⟩).green
      = true := by
  decide

/-- C8 (amended): in part_000 the green LED is level-driven on every call,
ON exactly when WiFi and the broker are connected and no alert is active;
in part_001 the green LED is updated only when the blink timer fires, its
condition consults only the alert flags (not connectivity), and between
firings it keeps its previous level. -/
theorem green_led :
    (∀ (now : Nat) (w m : Bool) (a : AlertState) (s : LedState),
      (gerenciarLeds000 now w m a s).green = (w && m && !a.temp && !a.humid))
    ∧ (∀ (now : Nat) (a : AlertState) (s : LedState),
      (readyGe blinkInterval now s.prevBlink = true →
        (gerenciarLeds001 now a s).green = (!a.temp && !a.humid))
      ∧ (readyGe blinkInterval now s.prevBlink = false →
        (gerenciarLeds001 now a s).green = s.green)) := by
  constructor
  · intro now w m a s
    by_cases hfire : readyGe blinkInterval now s.prevBlink <;>
      simp [gerenciarLeds000, hfire]
  · intro now a s
    constructor
    · intro hfire
      simp [gerenciarLeds001, hfire]
    · intro hidle
      simp [gerenciarLeds001, hidle]

/-- Witness for C8's theorem: with everything connected and no alert,
part_000 drives the green LED ON; at a firing with no alert, part_001
drives it ON as well. -/
theorem green_led_witness :
    (gerenciarLeds000 1100 true true ⟨false, false⟩
        ⟨1000, false, false, false, false⟩).green = true
    ∧ (gerenciarLeds001 1300 ⟨false, false⟩
        ⟨1000, false, false, false, false⟩).green = true := by
  constructor
  · have h := green_led.1 1100 true true ⟨false, false⟩ ⟨1000, false, false, false, false⟩
    exact h.trans (by decide)
  · have h := (green_led.2 1300 ⟨false, false⟩ ⟨1000, false, false, false, false⟩).1
      (by decide)
    exact h.trans (by decide)

/-! ## C9: button debounce -/

/-- C9: an edge toggles the page only when more than the debounce window
has elapsed since the last accepted edge (so in particular at least the
window has elapsed), and a concrete run with the 300 ms window of part_001
in which edges arrive at 1000 ms and 1050 ms accepts exactly the first
one: the page toggles once and `lastDebounceTime` records 1000. -/
theorem debounce_spec :
    (∀ (itv now : Nat) (s : BtnState),
      (buttonStep itv now true s).menu ≠ s.menu → itv ≤ sub32 now s.lastDebounce)
    ∧ runButton 300 [(1000, true), (1050, true)] ⟨false, 0⟩ = ⟨true, 1000⟩ := by
  constructor
  · intro itv now s h
    by_cases hr : readyGt itv now s.lastDebounce = true
    · have := of_decide_eq_true hr
      omega
    · exfalso
      apply h
      simp [buttonStep, hr]
  · decide

/-- Witness for C9's theorem: the first edge at 1000 ms was accepted, so at
least 300 ms had elapsed since the (initial) last accepted edge. -/
theorem debounce_spec_witness : 300 ≤ sub32 1000 0 :=
  debounce_spec.1 300 1000 ⟨false, 0⟩ (by decide)

/-! ## C10: no range validation on ingested bounds -/

/-- C10: ingestion accepts a message setting `temp_min` to 100 against the
initial `temp_max` of 30, leaving `temp_min > temp_max`, after which every
non-NaN reading raises the temperature alert; likewise a message setting
`umid_min` to 200 leaves `umid_min > umid_max` and every non-NaN reading
raises the humidity alert. -/
theorem no_range_validation :
    ((applyConf [("temp_min", 100)] initConfig).temp_max
        < (applyConf [("temp_min", 100)] initConfig).temp_min)
    ∧ (∀ t h : ℚ,
        (verificarAlertas001 (some t) (some h)
          (applyConf [("temp_min", 100)] initConfig)).temp = true)
    ∧ ((applyConf [("umid_min", 200)] initConfig).umid_max
        < (applyConf [("umid_min", 200)] initConfig).umid_min)
    ∧ (∀ t h : ℚ,
        (verificarAlertas001 (some t) (some h)
          (applyConf [("umid_min", 200)] initConfig)).humid = true) := by
  have hc1 : applyConf [("temp_min", 100)] initConfig = ⟨30, 100, 80, 30⟩ := by decide
  have hc2 : applyConf [("umid_min", 200)] initConfig = ⟨30, 15, 80, 200⟩ := by decide
  refine ⟨by decide, fun t h => ?_, by decide, fun t h => ?_⟩
  · rw [hc1]
    simp only [verificarAlertas001, fgt, flt]
    rcases le_or_lt t 30 with ht | ht
    · have h100 : t < 100 := lt_of_le_of_lt ht (by norm_num)
      simp [h100]
    · simp [ht]
  · rw [hc2]
    simp only [verificarAlertas001, fgt, flt]
    rcases le_or_lt h 80 with hh | hh
    · have h200 : h < 200 := lt_of_le_of_lt hh (by norm_num)
      simp [h200]
    · simp [hh]
